import Mathlib

/-!
Shallow embedding of the travel-time estimation component
(`app/services/travel_time.py`, class `TravelTimeService`) of the
rental-recon repository, together with theorems checking the
natural-language specification against it.

Modelling conventions:
* Python floats are modelled as rationals (`ℚ`); Python's `round`
  (banker's rounding, half-to-even) is `pyRoundInt` / `pyRound1`.
* Python exceptions are modelled with `Except String`.
* The outbound HTTP requests are modelled by oracles: the routing API
  is a function from the time slot to either a transport error or a
  parsed JSON response; geocoding results are `Option (ℚ × ℚ)`
  coordinates, and the haversine distance (transcendental in the
  source) is an oracle function on coordinate pairs.
* A Python dict entry that is either missing or `None` is `Option.none`.
-/

/-- Python `round(x)`: round half to even, returning an integer. -/
def pyRoundInt (x : ℚ) : ℤ :=
  let n := ⌊x⌋
  let f := x - (n : ℚ)
  if f < 1/2 then n
  else if 1/2 < f then n + 1
  else if 2 ∣ n then n else n + 1

/-- Python `round(x, 1)`: round half to even at one decimal place. -/
def pyRound1 (x : ℚ) : ℚ := (pyRoundInt (10 * x) : ℚ) / 10

/-- The five fixed time slots of `calculate_travel_times`. -/
inductive TimeKey
  | t830
  | t930
  | tmid
  | t630
  | t730
deriving DecidableEq

/-- One element of `rows[i]["elements"]` in the routing-API JSON body:
its `status` and the optional `duration_in_traffic.value` /
`duration.value` fields (seconds). -/
structure ApiElement where
  status : String
  duration_in_traffic : Option ℚ
  duration : Option ℚ
deriving DecidableEq

/-- One entry of `rows` in the routing-API JSON body. -/
structure ApiRow where
  elements : List ApiElement
deriving DecidableEq

/-- The parsed routing-API JSON body: top-level `status` and `rows`. -/
structure ApiResponse where
  status : String
  rows : List ApiRow
deriving DecidableEq

/-- The dict returned by `TravelTimeService._get_travel_time` on
success: `min`, `max`, `typical`, `display`, `conservative`. -/
structure TravelTimeData where
  min : ℤ
  max : ℤ
  typical : ℚ
  display : String
  conservative : ℤ
deriving DecidableEq

/-- The range derivation at the end of `_get_travel_time`:
`min = max(1, round(typical * 0.7))`, `max = round(typical * 1.3)`,
`display = "{min}-{max}"`, `conservative = max`. -/
def mkTravelTimeData (typical : ℚ) : TravelTimeData :=
  let min_time := max 1 (pyRoundInt (typical * (7/10)))
  let max_time := pyRoundInt (typical * (13/10))
  { min := min_time
    max := max_time
    typical := typical
    display := toString min_time ++ "-" ++ toString max_time
    conservative := max_time }

/-- `TravelTimeService._get_travel_time`: the argument is the outcome
of the HTTP request (`Except.error` = transport failure raised by
`requests`); the body is parsed exactly as in the source, raising
(`Except.error`) on non-"OK" top-level status, missing rows/elements,
non-"OK" element status, or missing duration data, and preferring
`duration_in_traffic` over `duration`. -/
def getTravelTime (resp : Except String ApiResponse) : Except String TravelTimeData :=
  match resp with
  | Except.error e => Except.error e
  | Except.ok data =>
    if data.status ≠ "OK" then
      Except.error ("Google Maps API error: " ++ data.status)
    else
      match data.rows with
      | [] => Except.error "No route found"
      | row :: _ =>
        match row.elements with
        | [] => Except.error "No route found"
        | element :: _ =>
          if element.status ≠ "OK" then
            Except.error ("Route calculation error: " ++ element.status)
          else
            match element.duration_in_traffic, element.duration with
            | none, none => Except.error "No duration data available"
            | some dit, _ => Except.ok (mkTravelTimeData (pyRound1 (dit / 60)))
            | none, some dn => Except.ok (mkTravelTimeData (pyRound1 (dn / 60)))

/-- The per-slot portion of the result dict of
`calculate_travel_times`: the `travel_time_<slot>` value, the
`travel_time_<slot>_display` string, and the optional
`travel_time_<slot>_anomaly` / `travel_time_<slot>_note` entries. -/
structure SlotOut where
  value : Option ℚ
  display : Option String
  anomaly : Bool
  note : Option String
deriving DecidableEq

/-- The full result dict of `calculate_travel_times` /
`_fallback_calculation`: the five slots plus the optional
`calculation_day` / `calculation_timestamp` metadata entries. -/
structure TravelTimes where
  t830 : SlotOut
  t930 : SlotOut
  tmid : SlotOut
  t630 : SlotOut
  t730 : SlotOut
  calculation_day : Option String
  calculation_timestamp : Option ℤ
deriving DecidableEq

/-- The body of the first-pass loop of `calculate_travel_times` for one
slot: on success store `conservative` and `display`; on an exception
store `None` for the slot (and no display entry). -/
def firstPassSlotOf (r : Except String TravelTimeData) : SlotOut :=
  match r with
  | Except.ok d =>
    { value := some (d.conservative : ℚ), display := some d.display
      anomaly := false, note := none }
  | Except.error _ =>
    { value := none, display := none, anomaly := false, note := none }

/-- `True` exactly when the slot's `_get_travel_time` call raised, i.e.
when the first-pass loop set `anomaly_detected = True`. -/
def isErr (r : Except String TravelTimeData) : Bool :=
  match r with
  | Except.error _ => true
  | Except.ok _ => false

/-- The contribution of one slot to the `all_times` list: the
`conservative` value on success, nothing on an exception. -/
def okConservative (r : Except String TravelTimeData) : Option ℚ :=
  match r with
  | Except.ok d => some (d.conservative : ℚ)
  | Except.error _ => none

/-- `sorted(all_times)[len(all_times) // 2]` from the anomaly check. -/
def codeMedian (l : List ℚ) : ℚ :=
  (l.insertionSort (fun a b => a ≤ b)).getD (l.length / 2) 0

/-- The note attached on an anomaly in `calculate_travel_times`. -/
def anomalyNote : String := "Unusually high traffic detected - possibly an incident"

/-- The body of the anomaly loop of `calculate_travel_times` for one of
the 08:30 / 09:30 slots: if the slot's stored value is present and
exceeds `2 * median`, set the `_anomaly` entry, and set the `_note`
entry only when `not use_tuesday and day_offset == 0`. -/
def anomalyPassSlot (median : ℚ) (use_tuesday : Bool) (day_offset : ℤ) (s : SlotOut) : SlotOut :=
  match s.value with
  | none => s
  | some v =>
    if 2 * median < v then
      { s with
        anomaly := true,
        note := if use_tuesday = false ∧ day_offset = 0 then some anomalyNote else s.note }
    else s

/-- The `day_name` metadata string of `calculate_travel_times`. -/
def dayName (use_tuesday : Bool) (day_offset : ℤ) : String :=
  let base := if use_tuesday then "Tuesday" else "Monday"
  if day_offset < 0 then
    "past " ++ base ++ " (" ++ toString (-day_offset) ++ " days ago)"
  else if 0 < day_offset then
    "future " ++ base ++ " (" ++ toString day_offset ++ " days ahead)"
  else
    "next " ++ base

/-- The live-API body of `calculate_travel_times` after the five
`_get_travel_time` outcomes are fixed: first pass, the guarded anomaly
pass over the 08:30 and 09:30 slots, and the metadata entries. -/
def assembleResult (r830 r930 rmid r630 r730 : Except String TravelTimeData)
    (nowTs : ℤ) (use_tuesday : Bool) (day_offset : ℤ) : TravelTimes :=
  let rs := [r830, r930, rmid, r630, r730]
  let all_times := rs.filterMap okConservative
  let anomaly_detected := rs.any isErr
  let s830 := firstPassSlotOf r830
  let s930 := firstPassSlotOf r930
  let pair :=
    if 3 ≤ all_times.length ∧ anomaly_detected = false then
      let m := codeMedian all_times
      (anomalyPassSlot m use_tuesday day_offset s830,
       anomalyPassSlot m use_tuesday day_offset s930)
    else (s830, s930)
  { t830 := pair.1
    t930 := pair.2
    tmid := firstPassSlotOf rmid
    t630 := firstPassSlotOf r630
    t730 := firstPassSlotOf r730
    calculation_day := some (dayName use_tuesday day_offset)
    calculation_timestamp := some nowTs }

/-- The live-API path of `calculate_travel_times`, with the routing API
modelled as an oracle per time slot. -/
def livePath (api : TimeKey → Except String ApiResponse)
    (nowTs : ℤ) (use_tuesday : Bool) (day_offset : ℤ) : TravelTimes :=
  assembleResult (getTravelTime (api TimeKey.t830)) (getTravelTime (api TimeKey.t930))
    (getTravelTime (api TimeKey.tmid)) (getTravelTime (api TimeKey.t630))
    (getTravelTime (api TimeKey.t730)) nowTs use_tuesday day_offset

/-- `TravelTimeService._estimate_base_travel_time`: `None` when either
geocode fails, otherwise `round((distance_km / 40) * 60, 1)` with the
haversine distance supplied by the `hav` oracle. -/
def estimateBaseTravelTime (geoO geoD : Option (ℚ × ℚ))
    (hav : ℚ × ℚ → ℚ × ℚ → ℚ) : Option ℚ :=
  match geoO, geoD with
  | some o, some d => some (pyRound1 (hav o d / 40 * 60))
  | _, _ => none

/-- `base_time * mult if base_time else None` from
`_fallback_calculation` (Python truthiness: `None` and `0.0` are both
falsy). -/
def fallbackValue (base : Option ℚ) (mult : ℚ) : Option ℚ :=
  match base with
  | none => none
  | some b => if b = 0 then none else some (b * mult)

/-- The `_display` entry of one fallback slot: the `0.7`/`1.3` range of
the stored value when present, `"N/A"` otherwise. -/
def fallbackDisplay (v : Option ℚ) : String :=
  match v with
  | none => "N/A"
  | some val =>
    toString (max 1 (pyRoundInt (val * (7/10)))) ++ "-" ++
      toString (pyRoundInt (val * (13/10)))

/-- `TravelTimeService._fallback_calculation`: per-slot congestion
multipliers 1.3 / 1.1 / 1.0 / 1.4 / 1.2 applied to the base time, plus
display strings; no anomaly entries and no metadata entries. -/
def fallbackCalculation (geoO geoD : Option (ℚ × ℚ))
    (hav : ℚ × ℚ → ℚ × ℚ → ℚ) : TravelTimes :=
  let base := estimateBaseTravelTime geoO geoD hav
  let v830 := fallbackValue base (13/10)
  let v930 := fallbackValue base (11/10)
  let vmid := fallbackValue base 1
  let v630 := fallbackValue base (14/10)
  let v730 := fallbackValue base (12/10)
  { t830 := { value := v830, display := some (fallbackDisplay v830), anomaly := false, note := none }
    t930 := { value := v930, display := some (fallbackDisplay v930), anomaly := false, note := none }
    tmid := { value := vmid, display := some (fallbackDisplay vmid), anomaly := false, note := none }
    t630 := { value := v630, display := some (fallbackDisplay v630), anomaly := false, note := none }
    t730 := { value := v730, display := some (fallbackDisplay v730), anomaly := false, note := none }
    calculation_day := none
    calculation_timestamp := none }

/-- `TravelTimeService.calculate_travel_times`: empty origin or
destination raises `ValueError`; with no API key configured the
fallback path runs; otherwise the live path runs. -/
def calculateTravelTimes (api_key : Option String) (origin destination : String)
    (api : TimeKey → Except String ApiResponse)
    (geoO geoD : Option (ℚ × ℚ)) (hav : ℚ × ℚ → ℚ × ℚ → ℚ)
    (nowTs : ℤ) (use_tuesday : Bool) (day_offset : ℤ) : Except String TravelTimes :=
  if origin = "" ∨ destination = "" then
    Except.error "Origin and destination must be provided"
  else
    match api_key with
    | none => Except.ok (fallbackCalculation geoO geoD hav)
    | some _ => Except.ok (livePath api nowTs use_tuesday day_offset)

/-- A naive `datetime` value for `_get_departure_time`: `day` is a day
index with day 0 a Monday (so `weekday() = day mod 7`, Monday = 0,
matching Python), plus the time-of-day fields. -/
structure PyDateTime where
  day : ℤ
  hour : ℤ
  minute : ℤ
  second : ℤ
  microsecond : ℤ
deriving DecidableEq

/-- Python `datetime.weekday()` under the day-index convention. -/
def pyWeekday (d : ℤ) : ℤ := d % 7

/-- `TravelTimeService._get_departure_time` up to the final
`timestamp()` call: `days_ahead = (target - weekday) % 7`, bumped to 7
when 0, plus `day_offset`; the result keeps the computed date and
replaces hour/minute and zeroes seconds/microseconds. -/
def getDepartureTime (now : PyDateTime) (hour minute : ℤ)
    (day_offset : ℤ) (use_tuesday : Bool) : PyDateTime :=
  let target_weekday : ℤ := if use_tuesday then 1 else 0
  let days_ahead := (target_weekday - pyWeekday now.day) % 7
  let days_ahead := if days_ahead = 0 then 7 else days_ahead
  { day := now.day + days_ahead + day_offset
    hour := hour
    minute := minute
    second := 0
    microsecond := 0 }

/-- A routing-API response with top-level status "OK" and a single
"OK" element carrying a traffic-aware duration of `secs` seconds. -/
def okResp (secs : ℚ) : ApiResponse :=
  { status := "OK",
    rows := [{ elements :=
      [{ status := "OK", duration_in_traffic := some secs, duration := none }] }] }

/-- A concrete routing oracle: the 08:30 query answers a 6000 s
duration, every other slot answers 600 s. -/
def spikeApi (k : TimeKey) : Except String ApiResponse :=
  match k with
  | TimeKey.t830 => Except.ok (okResp 6000)
  | _ => Except.ok (okResp 600)

/-- A concrete routing oracle: the 08:30 query is denied at top level
(status "REQUEST_DENIED"), every other slot answers 600 s. -/
def deniedApi (k : TimeKey) : Except String ApiResponse :=
  match k with
  | TimeKey.t830 => Except.ok { status := "REQUEST_DENIED", rows := [] }
  | _ => Except.ok (okResp 600)

/-- A concrete routing oracle: the 09:30 query is denied at top level
(status "REQUEST_DENIED"), every other slot answers 600 s. -/
def denied930Api (k : TimeKey) : Except String ApiResponse :=
  match k with
  | TimeKey.t930 => Except.ok { status := "REQUEST_DENIED", rows := [] }
  | _ => Except.ok (okResp 600)

/-- A constant haversine-distance oracle. -/
def constHav (q : ℚ) : ℚ × ℚ → ℚ × ℚ → ℚ := fun _ _ => q

/-- The five `_get_travel_time` outcomes of one live-path call, in the
first-pass loop's slot order. -/
def slotResults (api : TimeKey → Except String ApiResponse) :
    List (Except String TravelTimeData) :=
  [getTravelTime (api TimeKey.t830), getTravelTime (api TimeKey.t930),
    getTravelTime (api TimeKey.tmid), getTravelTime (api TimeKey.t630),
    getTravelTime (api TimeKey.t730)]

/-- The slot entry of a result record keyed by its time slot. -/
def TravelTimes.slot (r : TravelTimes) (k : TimeKey) : SlotOut :=
  match k with
  | TimeKey.t830 => r.t830
  | TimeKey.t930 => r.t930
  | TimeKey.tmid => r.tmid
  | TimeKey.t630 => r.t630
  | TimeKey.t730 => r.t730

/-! ## Helper lemmas -/

theorem getTravelTime_ok_shape (resp : Except String ApiResponse) (d : TravelTimeData)
    (h : getTravelTime resp = Except.ok d) : ∃ t, d = mkTravelTimeData t := by
  unfold getTravelTime at h
  repeat' split at h
  any_goals exact Except.noConfusion h
  all_goals injection h with h; exact ⟨_, h.symm⟩

theorem getTravelTime_error_of_status (resp : ApiResponse) (hst : resp.status ≠ "OK") :
    getTravelTime (Except.ok resp) =
      Except.error ("Google Maps API error: " ++ resp.status) := by
  simp [getTravelTime, hst]

theorem anomalyPassSlot_value (m : ℚ) (ut : Bool) (off : ℤ) (s : SlotOut) :
    (anomalyPassSlot m ut off s).value = s.value := by
  unfold anomalyPassSlot
  split
  · rfl
  · split <;> rfl

theorem anomalyPassSlot_display (m : ℚ) (ut : Bool) (off : ℤ) (s : SlotOut) :
    (anomalyPassSlot m ut off s).display = s.display := by
  unfold anomalyPassSlot
  split
  · rfl
  · split <;> rfl

theorem assembleResult_pos (r830 r930 rmid r630 r730 : Except String TravelTimeData)
    (nowTs : ℤ) (ut : Bool) (off : ℤ)
    (h : 3 ≤ (List.filterMap okConservative [r830, r930, rmid, r630, r730]).length ∧
      List.any [r830, r930, rmid, r630, r730] isErr = false) :
    assembleResult r830 r930 rmid r630 r730 nowTs ut off =
      { t830 := anomalyPassSlot
          (codeMedian (List.filterMap okConservative [r830, r930, rmid, r630, r730]))
          ut off (firstPassSlotOf r830),
        t930 := anomalyPassSlot
          (codeMedian (List.filterMap okConservative [r830, r930, rmid, r630, r730]))
          ut off (firstPassSlotOf r930),
        tmid := firstPassSlotOf rmid,
        t630 := firstPassSlotOf r630,
        t730 := firstPassSlotOf r730,
        calculation_day := some (dayName ut off),
        calculation_timestamp := some nowTs } := by
  simp only [assembleResult]
  rw [if_pos h]

theorem assembleResult_neg (r830 r930 rmid r630 r730 : Except String TravelTimeData)
    (nowTs : ℤ) (ut : Bool) (off : ℤ)
    (h : ¬(3 ≤ (List.filterMap okConservative [r830, r930, rmid, r630, r730]).length ∧
      List.any [r830, r930, rmid, r630, r730] isErr = false)) :
    assembleResult r830 r930 rmid r630 r730 nowTs ut off =
      { t830 := firstPassSlotOf r830,
        t930 := firstPassSlotOf r930,
        tmid := firstPassSlotOf rmid,
        t630 := firstPassSlotOf r630,
        t730 := firstPassSlotOf r730,
        calculation_day := some (dayName ut off),
        calculation_timestamp := some nowTs } := by
  simp only [assembleResult]
  rw [if_neg h]

/-! ## Claim theorems -/

/-- Claim C7: the computed departure moment is the next strictly-future
occurrence of the target weekday (Monday, or Tuesday if
`use_tuesday`) — 7 days later when today already is that weekday —
shifted by `day_offset` days, at exactly the slot's hour and minute
with zero seconds and microseconds; uniqueness of the occurrence in
the window `(now, now + 7]` is included. -/
theorem C7_departure_moment (now : PyDateTime) (hour minute day_offset : ℤ) (ut : Bool) :
    (now.day < (getDepartureTime now hour minute day_offset ut).day - day_offset ∧
      (getDepartureTime now hour minute day_offset ut).day - day_offset ≤ now.day + 7 ∧
      pyWeekday ((getDepartureTime now hour minute day_offset ut).day - day_offset) =
        (if ut then 1 else 0)) ∧
    (∀ n : ℤ, now.day < n → n ≤ now.day + 7 → pyWeekday n = (if ut then 1 else 0) →
      n = (getDepartureTime now hour minute day_offset ut).day - day_offset) ∧
    (pyWeekday now.day = (if ut then 1 else 0) →
      (getDepartureTime now hour minute day_offset ut).day = now.day + 7 + day_offset) ∧
    (getDepartureTime now hour minute day_offset ut).hour = hour ∧
    (getDepartureTime now hour minute day_offset ut).minute = minute ∧
    (getDepartureTime now hour minute day_offset ut).second = 0 ∧
    (getDepartureTime now hour minute day_offset ut).microsecond = 0 := by
  have hday : (getDepartureTime now hour minute day_offset ut).day =
      now.day + (if ((if ut then (1 : ℤ) else 0) - now.day % 7) % 7 = 0 then 7
        else ((if ut then (1 : ℤ) else 0) - now.day % 7) % 7) + day_offset := rfl
  refine ⟨⟨?_, ?_, ?_⟩, fun n h1 h2 h3 => ?_, fun h => ?_, rfl, rfl, rfl, rfl⟩ <;>
    rw [hday] <;> unfold pyWeekday at * <;>
    cases ut <;> simp only [Bool.false_eq_true, if_false, if_true] at * <;>
    split <;> omega

/-- Concrete check of C7: for a Monday `now`, default weekday and zero
offset, the departure is exactly 7 days ahead at 08:30:00.000000. -/
theorem C7_departure_moment_witness :
    (getDepartureTime { day := 0, hour := 7, minute := 15, second := 30, microsecond := 123 }
        8 30 0 false).day = 0 + 7 + 0 ∧
    (getDepartureTime { day := 0, hour := 7, minute := 15, second := 30, microsecond := 123 }
        8 30 0 false).hour = 8 ∧
    (getDepartureTime { day := 0, hour := 7, minute := 15, second := 30, microsecond := 123 }
        8 30 0 false).minute = 30 ∧
    (getDepartureTime { day := 0, hour := 7, minute := 15, second := 30, microsecond := 123 }
        8 30 0 false).second = 0 ∧
    (getDepartureTime { day := 0, hour := 7, minute := 15, second := 30, microsecond := 123 }
        8 30 0 false).microsecond = 0 := by
  have h := C7_departure_moment
    { day := 0, hour := 7, minute := 15, second := 30, microsecond := 123 } 8 30 0 false
  exact ⟨h.2.2.1 (by decide), h.2.2.2.1, h.2.2.2.2.1, h.2.2.2.2.2.1, h.2.2.2.2.2.2⟩

/-- Claim C10: the anomaly pass is purely additive — every slot's
stored value and display string is identical before and after it, and
the midday / 18:30 / 19:30 slots are exactly their first-pass
results. -/
theorem C10_anomaly_additive (api : TimeKey → Except String ApiResponse)
    (nowTs : ℤ) (ut : Bool) (off : ℤ) :
    (livePath api nowTs ut off).t830.value =
      (firstPassSlotOf (getTravelTime (api TimeKey.t830))).value ∧
    (livePath api nowTs ut off).t830.display =
      (firstPassSlotOf (getTravelTime (api TimeKey.t830))).display ∧
    (livePath api nowTs ut off).t930.value =
      (firstPassSlotOf (getTravelTime (api TimeKey.t930))).value ∧
    (livePath api nowTs ut off).t930.display =
      (firstPassSlotOf (getTravelTime (api TimeKey.t930))).display ∧
    (livePath api nowTs ut off).tmid = firstPassSlotOf (getTravelTime (api TimeKey.tmid)) ∧
    (livePath api nowTs ut off).t630 = firstPassSlotOf (getTravelTime (api TimeKey.t630)) ∧
    (livePath api nowTs ut off).t730 = firstPassSlotOf (getTravelTime (api TimeKey.t730)) := by
  unfold livePath
  by_cases h : 3 ≤ (List.filterMap okConservative
      [getTravelTime (api TimeKey.t830), getTravelTime (api TimeKey.t930),
        getTravelTime (api TimeKey.tmid), getTravelTime (api TimeKey.t630),
        getTravelTime (api TimeKey.t730)]).length ∧
      List.any [getTravelTime (api TimeKey.t830), getTravelTime (api TimeKey.t930),
        getTravelTime (api TimeKey.tmid), getTravelTime (api TimeKey.t630),
        getTravelTime (api TimeKey.t730)] isErr = false
  · rw [assembleResult_pos _ _ _ _ _ _ _ _ h]
    exact ⟨anomalyPassSlot_value _ _ _ _, anomalyPassSlot_display _ _ _ _,
      anomalyPassSlot_value _ _ _ _, anomalyPassSlot_display _ _ _ _, rfl, rfl, rfl⟩
  · rw [assembleResult_neg _ _ _ _ _ _ _ _ h]
    exact ⟨rfl, rfl, rfl, rfl, rfl, rfl, rfl⟩

/-- Claim C6: for every slot computed by `_get_travel_time`,
`min = max(1, round(typical * 0.7))`, `max = round(typical * 1.3)`,
`display = "{min}-{max}"`, `conservative = max`; the boundary case
`typical = 1` yields `min = 1`; and the fallback display entry uses
the same bounds formula on the slot's value. -/
theorem C6_range_bounds (resp : Except String ApiResponse) (d : TravelTimeData)
    (h : getTravelTime resp = Except.ok d) (v : ℚ) :
    d.min = max 1 (pyRoundInt (d.typical * (7/10))) ∧
    d.max = pyRoundInt (d.typical * (13/10)) ∧
    d.display = toString d.min ++ "-" ++ toString d.max ∧
    d.conservative = d.max ∧
    (d.typical = 1 → d.min = 1) ∧
    fallbackDisplay (some v) =
      toString (max 1 (pyRoundInt (v * (7/10)))) ++ "-" ++
        toString (pyRoundInt (v * (13/10))) := by
  obtain ⟨t, rfl⟩ := getTravelTime_ok_shape resp d h
  refine ⟨rfl, rfl, rfl, rfl, ?_, rfl⟩
  intro h1
  have ht : t = 1 := h1
  subst ht
  norm_num [mkTravelTimeData, pyRoundInt]

/-- Concrete check of C6 at `typical = 1` (a 60-second route): the
derived slot is exactly `min = 1`, `max = 1`, display "1-1". -/
theorem C6_range_bounds_witness :
    (mkTravelTimeData 1).min = max 1 (pyRoundInt ((mkTravelTimeData 1).typical * (7/10))) ∧
    (mkTravelTimeData 1).max = pyRoundInt ((mkTravelTimeData 1).typical * (13/10)) ∧
    (mkTravelTimeData 1).display =
      toString (mkTravelTimeData 1).min ++ "-" ++ toString (mkTravelTimeData 1).max ∧
    (mkTravelTimeData 1).conservative = (mkTravelTimeData 1).max ∧
    ((mkTravelTimeData 1).typical = 1 → (mkTravelTimeData 1).min = 1) ∧
    fallbackDisplay (some 10) =
      toString (max 1 (pyRoundInt ((10 : ℚ) * (7/10)))) ++ "-" ++
        toString (pyRoundInt ((10 : ℚ) * (13/10))) :=
  C6_range_bounds (Except.ok (okResp 60)) (mkTravelTimeData 1)
    (by simp only [getTravelTime, okResp]
        norm_num [pyRound1, pyRoundInt]) 10

theorem firstPassSlotOf_anomaly (r : Except String TravelTimeData) :
    (firstPassSlotOf r).anomaly = false := by
  cases r <;> rfl

theorem firstPassSlotOf_note (r : Except String TravelTimeData) :
    (firstPassSlotOf r).note = none := by
  cases r <;> rfl

theorem codeMedian_spec (l s : List ℚ) (hp : s.Perm l)
    (hs : s.Sorted (fun a b => a ≤ b)) :
    codeMedian l = s.getD (l.length / 2) 0 := by
  have h1 : (l.insertionSort (fun a b => a ≤ b)).Perm l := List.perm_insertionSort _ l
  have h2 : (l.insertionSort (fun a b => a ≤ b)).Sorted (fun a b => a ≤ b) :=
    List.sorted_insertionSort _ l
  have hse : s = l.insertionSort (fun a b => a ≤ b) :=
    List.eq_of_perm_of_sorted (hp.trans h1.symm) hs h2
  rw [codeMedian, ← hse]

/-- Claim C3: the anomaly pass runs exactly when at least 3 slots
succeeded and no slot errored — when it does not run the 08:30/09:30
slots are their unflagged first-pass results, and when it runs they
are the anomaly-pass images under the code's median, which equals the
element at index `n / 2` of any (hence the) ascending-sorted
arrangement of the successful conservative values; slots other than
08:30/09:30 never carry an anomaly flag or note. -/
theorem C3_anomaly_gating (api : TimeKey → Except String ApiResponse)
    (nowTs : ℤ) (ut : Bool) (off : ℤ) :
    (¬(3 ≤ (List.filterMap okConservative (slotResults api)).length ∧
        List.any (slotResults api) isErr = false) →
      (livePath api nowTs ut off).t830 = firstPassSlotOf (getTravelTime (api TimeKey.t830)) ∧
      (livePath api nowTs ut off).t930 = firstPassSlotOf (getTravelTime (api TimeKey.t930)) ∧
      (livePath api nowTs ut off).t830.anomaly = false ∧
      (livePath api nowTs ut off).t930.anomaly = false) ∧
    ((3 ≤ (List.filterMap okConservative (slotResults api)).length ∧
        List.any (slotResults api) isErr = false) →
      (livePath api nowTs ut off).t830 =
        anomalyPassSlot (codeMedian (List.filterMap okConservative (slotResults api))) ut off
          (firstPassSlotOf (getTravelTime (api TimeKey.t830))) ∧
      (livePath api nowTs ut off).t930 =
        anomalyPassSlot (codeMedian (List.filterMap okConservative (slotResults api))) ut off
          (firstPassSlotOf (getTravelTime (api TimeKey.t930))) ∧
      (∀ s : List ℚ, s.Perm (List.filterMap okConservative (slotResults api)) →
        s.Sorted (fun a b => a ≤ b) →
        codeMedian (List.filterMap okConservative (slotResults api)) =
          s.getD ((List.filterMap okConservative (slotResults api)).length / 2) 0)) ∧
    (livePath api nowTs ut off).tmid.anomaly = false ∧
    (livePath api nowTs ut off).t630.anomaly = false ∧
    (livePath api nowTs ut off).t730.anomaly = false ∧
    (livePath api nowTs ut off).tmid.note = none ∧
    (livePath api nowTs ut off).t630.note = none ∧
    (livePath api nowTs ut off).t730.note = none := by
  simp only [slotResults, livePath]
  by_cases h : 3 ≤ (List.filterMap okConservative
      [getTravelTime (api TimeKey.t830), getTravelTime (api TimeKey.t930),
        getTravelTime (api TimeKey.tmid), getTravelTime (api TimeKey.t630),
        getTravelTime (api TimeKey.t730)]).length ∧
      List.any [getTravelTime (api TimeKey.t830), getTravelTime (api TimeKey.t930),
        getTravelTime (api TimeKey.tmid), getTravelTime (api TimeKey.t630),
        getTravelTime (api TimeKey.t730)] isErr = false
  · rw [assembleResult_pos _ _ _ _ _ _ _ _ h]
    exact ⟨fun hn => absurd h hn,
      fun _ => ⟨rfl, rfl, fun s hp hs => codeMedian_spec _ s hp hs⟩,
      firstPassSlotOf_anomaly _, firstPassSlotOf_anomaly _, firstPassSlotOf_anomaly _,
      firstPassSlotOf_note _, firstPassSlotOf_note _, firstPassSlotOf_note _⟩
  · rw [assembleResult_neg _ _ _ _ _ _ _ _ h]
    exact ⟨fun _ => ⟨rfl, rfl, firstPassSlotOf_anomaly _, firstPassSlotOf_anomaly _⟩,
      fun hp => absurd hp h,
      firstPassSlotOf_anomaly _, firstPassSlotOf_anomaly _, firstPassSlotOf_anomaly _,
      firstPassSlotOf_note _, firstPassSlotOf_note _, firstPassSlotOf_note _⟩

/-- Concrete check of C3: with the spiked oracle the pass runs and its
median is the lower-middle element of the sorted conservative list;
with the denied oracle (one slot errored) the 08:30 slot stays its
unflagged first-pass result. -/
theorem C3_anomaly_gating_witness :
    (livePath deniedApi 0 false 0).t830 =
      firstPassSlotOf (getTravelTime (deniedApi TimeKey.t830)) ∧
    (livePath spikeApi 0 false 0).t830 =
      anomalyPassSlot (codeMedian (List.filterMap okConservative (slotResults spikeApi)))
        false 0 (firstPassSlotOf (getTravelTime (spikeApi TimeKey.t830))) ∧
    codeMedian (List.filterMap okConservative (slotResults spikeApi)) =
      (List.insertionSort (fun a b => a ≤ b)
          (List.filterMap okConservative (slotResults spikeApi))).getD
        ((List.filterMap okConservative (slotResults spikeApi)).length / 2) 0 ∧
    (livePath spikeApi 0 false 0).tmid.anomaly = false := by
  have hden := C3_anomaly_gating deniedApi 0 false 0
  have hsp := C3_anomaly_gating spikeApi 0 false 0
  have hdcond : ¬(3 ≤ (List.filterMap okConservative (slotResults deniedApi)).length ∧
      List.any (slotResults deniedApi) isErr = false) := by
    simp [slotResults, deniedApi, getTravelTime, isErr]
  have hscond : 3 ≤ (List.filterMap okConservative (slotResults spikeApi)).length ∧
      List.any (slotResults spikeApi) isErr = false := by
    simp [slotResults, spikeApi, getTravelTime, okResp, isErr, okConservative]
  exact ⟨(hden.1 hdcond).1, (hsp.2.1 hscond).1,
    (hsp.2.1 hscond).2.2 _ (List.perm_insertionSort _ _) (List.sorted_insertionSort _ _),
    hsp.2.2.1⟩

/-- Claim C2 (amended): when the anomaly pass runs, a 08:30 or 09:30
slot whose conservative estimate strictly exceeds twice the median is
flagged; the explanatory note is attached exactly when
`use_tuesday = false` and `day_offset = 0`, not regardless of them. -/
theorem C2_anomaly_note (api : TimeKey → Except String ApiResponse)
    (nowTs : ℤ) (ut : Bool) (off : ℤ)
    (hrun : 3 ≤ (List.filterMap okConservative (slotResults api)).length ∧
      List.any (slotResults api) isErr = false) :
    (∀ d : TravelTimeData, getTravelTime (api TimeKey.t830) = Except.ok d →
      2 * codeMedian (List.filterMap okConservative (slotResults api)) < (d.conservative : ℚ) →
      (livePath api nowTs ut off).t830.anomaly = true ∧
      ((livePath api nowTs ut off).t830.note = some anomalyNote ↔ ut = false ∧ off = 0)) ∧
    (∀ d : TravelTimeData, getTravelTime (api TimeKey.t930) = Except.ok d →
      2 * codeMedian (List.filterMap okConservative (slotResults api)) < (d.conservative : ℚ) →
      (livePath api nowTs ut off).t930.anomaly = true ∧
      ((livePath api nowTs ut off).t930.note = some anomalyNote ↔ ut = false ∧ off = 0)) := by
  simp only [slotResults, livePath] at hrun ⊢
  rw [assembleResult_pos _ _ _ _ _ _ _ _ hrun]
  constructor
  all_goals
    intro d hd hlt
    rw [hd] at hlt ⊢
    constructor
    · simp [anomalyPassSlot, firstPassSlotOf, hlt]
    · by_cases hc : ut = false ∧ off = 0 <;>
        simp [anomalyPassSlot, firstPassSlotOf, hlt, hc, anomalyNote]

/-- Concrete check of C2 (amended): the spiked oracle with default
weekday and zero offset flags the 08:30 slot and attaches the note. -/
theorem C2_anomaly_note_witness :
    (livePath spikeApi 0 false 0).t830.anomaly = true ∧
    (livePath spikeApi 0 false 0).t830.note = some anomalyNote := by
  have hrun : 3 ≤ (List.filterMap okConservative (slotResults spikeApi)).length ∧
      List.any (slotResults spikeApi) isErr = false := by
    simp [slotResults, spikeApi, getTravelTime, okResp, isErr, okConservative]
  have hd : getTravelTime (spikeApi TimeKey.t830) = Except.ok (mkTravelTimeData 100) := by
    simp only [spikeApi, getTravelTime, okResp]
    norm_num [pyRound1, pyRoundInt]
  have hlt : 2 * codeMedian (List.filterMap okConservative (slotResults spikeApi)) <
      ((mkTravelTimeData 100).conservative : ℚ) := by
    have h6000 : getTravelTime (Except.ok (okResp 6000)) = Except.ok (mkTravelTimeData 100) := by
      simp only [getTravelTime, okResp]
      norm_num [pyRound1, pyRoundInt]
    have h600 : getTravelTime (Except.ok (okResp 600)) = Except.ok (mkTravelTimeData 10) := by
      simp only [getTravelTime, okResp]
      norm_num [pyRound1, pyRoundInt]
    have hcons130 : ((mkTravelTimeData 100).conservative : ℚ) = 130 := by
      norm_num [mkTravelTimeData, pyRoundInt]
    have hcons13 : ((mkTravelTimeData 10).conservative : ℚ) = 13 := by
      norm_num [mkTravelTimeData, pyRoundInt]
    simp only [slotResults, spikeApi, h6000, h600, List.filterMap_cons, List.filterMap_nil,
      okConservative, hcons130, hcons13]
    norm_num [codeMedian, List.insertionSort, List.orderedInsert, List.getD]
  have h := (C2_anomaly_note spikeApi 0 false 0 hrun).1 (mkTravelTimeData 100) hd hlt
  exact ⟨h.1, h.2.mpr ⟨rfl, rfl⟩⟩

/-- Claim C2 is false as stated: with `use_tuesday = true` (so
regardless-of-flag fails) the spiked call flags the 08:30 slot but
attaches no note. -/
theorem C2_counterexample :
    (calculateTravelTimes (some "k") "a" "b" spikeApi none none (constHav 0) 0 true 0).map
      (fun r => (r.t830.anomaly, r.t830.note)) = Except.ok (true, none) := by
  have hcall : calculateTravelTimes (some "k") "a" "b" spikeApi none none (constHav 0) 0 true 0 =
      Except.ok (livePath spikeApi 0 true 0) := by
    simp [calculateTravelTimes]
  rw [hcall]
  norm_num [livePath, assembleResult, getTravelTime, spikeApi, okResp,
    mkTravelTimeData, pyRound1, pyRoundInt, firstPassSlotOf, okConservative, isErr, codeMedian,
    List.insertionSort, List.orderedInsert, anomalyPassSlot, anomalyNote, Except.map,
    List.filterMap_cons, List.filterMap_nil, List.any_cons, List.any_nil, List.getD]

/-- Claim C1 is false as stated: with an API key configured and the
08:30 query denied at top level ("REQUEST_DENIED"), the call does not
fail — it returns a result whose 08:30 slot is absent while the 09:30
slot is filled in (partial per-slot data). -/
theorem C1_counterexample :
    (calculateTravelTimes (some "k") "a" "b" deniedApi none none (constHav 0) 0 false 0).map
      (fun r => (r.t830.value, r.t930.value)) = Except.ok (none, some 13) := by
  simp [calculateTravelTimes, livePath, assembleResult, getTravelTime, deniedApi, okResp,
    mkTravelTimeData, pyRound1, pyRoundInt, firstPassSlotOf, okConservative, isErr, codeMedian,
    List.insertionSort, List.orderedInsert, anomalyPassSlot, Except.map, List.getD]
  norm_num

/-- Claim C1 (amended): a non-"OK" top-level routing status for any
slot's query is caught by the per-slot handler — that slot's entry
becomes absent and unflagged and the anomaly pass is suppressed —
while the call itself returns normally: every slot (the denied one
included) is exactly its individually computed first-pass result and
the metadata entries are present; no call-wide failure is raised. -/
theorem C1_denied_slot (key origin destination : String)
    (api : TimeKey → Except String ApiResponse)
    (geoO geoD : Option (ℚ × ℚ)) (hav : ℚ × ℚ → ℚ × ℚ → ℚ)
    (nowTs : ℤ) (ut : Bool) (off : ℤ) (k : TimeKey) (resp : ApiResponse)
    (ho : origin ≠ "") (hd : destination ≠ "")
    (hk : api k = Except.ok resp) (hst : resp.status ≠ "OK") :
    (calculateTravelTimes (some key) origin destination api geoO geoD hav nowTs ut off).map
      (fun r => r.slot k) =
      Except.ok { value := none, display := none, anomaly := false, note := none } ∧
    (∀ j : TimeKey,
      (calculateTravelTimes (some key) origin destination api geoO geoD hav nowTs ut off).map
        (fun r => r.slot j) = Except.ok (firstPassSlotOf (getTravelTime (api j)))) ∧
    (calculateTravelTimes (some key) origin destination api geoO geoD hav nowTs ut off).map
      (fun r => (r.calculation_day, r.calculation_timestamp)) =
      Except.ok (some (dayName ut off), some nowTs) := by
  have herr : getTravelTime (api k) =
      Except.error ("Google Maps API error: " ++ resp.status) := by
    rw [hk]
    exact getTravelTime_error_of_status resp hst
  have hcond : ¬(3 ≤ (List.filterMap okConservative
      [getTravelTime (api TimeKey.t830), getTravelTime (api TimeKey.t930),
        getTravelTime (api TimeKey.tmid), getTravelTime (api TimeKey.t630),
        getTravelTime (api TimeKey.t730)]).length ∧
      List.any [getTravelTime (api TimeKey.t830), getTravelTime (api TimeKey.t930),
        getTravelTime (api TimeKey.tmid), getTravelTime (api TimeKey.t630),
        getTravelTime (api TimeKey.t730)] isErr = false) := by
    cases k <;> simp [herr, isErr]
  have hcall : calculateTravelTimes (some key) origin destination api geoO geoD hav
      nowTs ut off =
      Except.ok
        { t830 := firstPassSlotOf (getTravelTime (api TimeKey.t830)),
          t930 := firstPassSlotOf (getTravelTime (api TimeKey.t930)),
          tmid := firstPassSlotOf (getTravelTime (api TimeKey.tmid)),
          t630 := firstPassSlotOf (getTravelTime (api TimeKey.t630)),
          t730 := firstPassSlotOf (getTravelTime (api TimeKey.t730)),
          calculation_day := some (dayName ut off),
          calculation_timestamp := some nowTs } := by
    simp only [calculateTravelTimes, ho, hd, livePath]
    rw [assembleResult_neg _ _ _ _ _ _ _ _ hcond]
    simp
  rw [hcall]
  refine ⟨?_, fun j => ?_, rfl⟩
  · cases k <;> simp [TravelTimes.slot, Except.map, herr, firstPassSlotOf]
  · cases j <;> rfl

/-- Concrete check of C1 (amended) on an oracle whose 09:30 query is
the denied one: the 09:30 slot is absent, the 08:30 slot keeps its
computed data, and the metadata is present. -/
theorem C1_denied_slot_witness :
    (calculateTravelTimes (some "k") "a" "b" denied930Api none none (constHav 0)
        0 false 0).map (fun r => r.slot TimeKey.t930) =
      Except.ok { value := none, display := none, anomaly := false, note := none } ∧
    (calculateTravelTimes (some "k") "a" "b" denied930Api none none (constHav 0)
        0 false 0).map (fun r => r.slot TimeKey.t830) =
      Except.ok (firstPassSlotOf (getTravelTime (denied930Api TimeKey.t830))) ∧
    (calculateTravelTimes (some "k") "a" "b" denied930Api none none (constHav 0)
        0 false 0).map (fun r => (r.calculation_day, r.calculation_timestamp)) =
      Except.ok (some (dayName false 0), some 0) := by
  have h := C1_denied_slot "k" "a" "b" denied930Api none none (constHav 0) 0 false 0
    TimeKey.t930 { status := "REQUEST_DENIED", rows := [] }
    (by decide) (by decide) rfl (by decide)
  exact ⟨h.1, h.2.1 TimeKey.t830, h.2.2⟩

theorem fallbackCalculation_values (geoO geoD : Option (ℚ × ℚ)) (hav : ℚ × ℚ → ℚ × ℚ → ℚ)
    (b : ℚ) (hb : estimateBaseTravelTime geoO geoD hav = some b) (hb0 : b ≠ 0) :
    (fallbackCalculation geoO geoD hav).t830.value = some (b * (13/10)) ∧
    (fallbackCalculation geoO geoD hav).t930.value = some (b * (11/10)) ∧
    (fallbackCalculation geoO geoD hav).tmid.value = some (b * 1) ∧
    (fallbackCalculation geoO geoD hav).t630.value = some (b * (14/10)) ∧
    (fallbackCalculation geoO geoD hav).t730.value = some (b * (12/10)) := by
  simp [fallbackCalculation, hb, fallbackValue, hb0]

theorem livePath_values (api : TimeKey → Except String ApiResponse)
    (nowTs : ℤ) (ut : Bool) (off : ℤ) :
    (livePath api nowTs ut off).t830.value =
      (firstPassSlotOf (getTravelTime (api TimeKey.t830))).value ∧
    (livePath api nowTs ut off).t930.value =
      (firstPassSlotOf (getTravelTime (api TimeKey.t930))).value ∧
    (livePath api nowTs ut off).tmid.value =
      (firstPassSlotOf (getTravelTime (api TimeKey.tmid))).value ∧
    (livePath api nowTs ut off).t630.value =
      (firstPassSlotOf (getTravelTime (api TimeKey.t630))).value ∧
    (livePath api nowTs ut off).t730.value =
      (firstPassSlotOf (getTravelTime (api TimeKey.t730))).value := by
  unfold livePath
  by_cases h : 3 ≤ (List.filterMap okConservative
      [getTravelTime (api TimeKey.t830), getTravelTime (api TimeKey.t930),
        getTravelTime (api TimeKey.tmid), getTravelTime (api TimeKey.t630),
        getTravelTime (api TimeKey.t730)]).length ∧
      List.any [getTravelTime (api TimeKey.t830), getTravelTime (api TimeKey.t930),
        getTravelTime (api TimeKey.tmid), getTravelTime (api TimeKey.t630),
        getTravelTime (api TimeKey.t730)] isErr = false
  · rw [assembleResult_pos _ _ _ _ _ _ _ _ h]
    exact ⟨anomalyPassSlot_value _ _ _ _, anomalyPassSlot_value _ _ _ _, rfl, rfl, rfl⟩
  · rw [assembleResult_neg _ _ _ _ _ _ _ _ h]
    exact ⟨rfl, rfl, rfl, rfl, rfl⟩

/-- Claim C4 (amended): live-API results carry `calculation_day` (the
weekday/offset label) and `calculation_timestamp` (unix seconds), in
the documented formats; fallback results carry neither metadata
entry. -/
theorem C4_metadata (key origin destination : String)
    (api : TimeKey → Except String ApiResponse)
    (geoO geoD : Option (ℚ × ℚ)) (hav : ℚ × ℚ → ℚ × ℚ → ℚ)
    (nowTs : ℤ) (ut : Bool) (off : ℤ)
    (ho : origin ≠ "") (hd : destination ≠ "") :
    (calculateTravelTimes (some key) origin destination api geoO geoD hav nowTs ut off).map
      (fun r => (r.calculation_day, r.calculation_timestamp)) =
      Except.ok (some (dayName ut off), some nowTs) ∧
    (calculateTravelTimes none origin destination api geoO geoD hav nowTs ut off).map
      (fun r => (r.calculation_day, r.calculation_timestamp)) = Except.ok (none, none) ∧
    dayName false 0 = "next Monday" ∧
    dayName true 3 = "future Tuesday (3 days ahead)" ∧
    dayName false (-2) = "past Monday (2 days ago)" := by
  refine ⟨?_, ?_, rfl, rfl, rfl⟩
  · simp [calculateTravelTimes, ho, hd, Except.map, livePath, assembleResult]
  · simp [calculateTravelTimes, ho, hd, Except.map, fallbackCalculation]

/-- Concrete check of C4 (amended): a live call with Tuesday and
offset 3 carries the "future Tuesday (3 days ahead)" label and the
timestamp 5; the fallback call carries no metadata. -/
theorem C4_metadata_witness :
    (calculateTravelTimes (some "k") "a" "b" deniedApi none none (constHav 0) 5 true 3).map
      (fun r => (r.calculation_day, r.calculation_timestamp)) =
      Except.ok (some "future Tuesday (3 days ahead)", some 5) ∧
    (calculateTravelTimes none "a" "b" deniedApi none none (constHav 0) 5 true 3).map
      (fun r => (r.calculation_day, r.calculation_timestamp)) = Except.ok (none, none) := by
  have h := C4_metadata "k" "a" "b" deniedApi none none (constHav 0) 5 true 3
    (by decide) (by decide)
  refine ⟨?_, h.2.1⟩
  rw [h.1]
  rfl

/-- Claim C4 is false as stated: a non-failing fallback call — it even
returns a midday estimate of 60 minutes — carries neither
`calculation_day` nor `calculation_timestamp`. -/
theorem C4_counterexample :
    (calculateTravelTimes none "a" "b" deniedApi (some (0, 0)) (some (1, 1)) (constHav 40)
        0 false 0).map
      (fun r => (r.calculation_day, r.calculation_timestamp, r.tmid.value)) =
      Except.ok (none, none, some 60) := by
  simp [calculateTravelTimes, fallbackCalculation, estimateBaseTravelTime, constHav,
    fallbackValue, Except.map]
  norm_num [pyRound1, pyRoundInt]

/-- Claim C5 (amended): in the live-API path every present per-slot
value is the conservative estimate, i.e. `round(typical * 1.3)` (the
max bound of the range); in the fallback path the stored per-slot
value is the multiplied base time itself (the slot's typical value),
not the max of the displayed range. -/
theorem C5_conservative_persisted (api : TimeKey → Except String ApiResponse)
    (nowTs : ℤ) (ut : Bool) (off : ℤ)
    (geoO geoD : Option (ℚ × ℚ)) (hav : ℚ × ℚ → ℚ × ℚ → ℚ) (b : ℚ) :
    (∀ d : TravelTimeData, getTravelTime (api TimeKey.t830) = Except.ok d →
      (livePath api nowTs ut off).t830.value = some (d.conservative : ℚ) ∧
      d.conservative = pyRoundInt (d.typical * (13/10))) ∧
    (∀ d : TravelTimeData, getTravelTime (api TimeKey.t930) = Except.ok d →
      (livePath api nowTs ut off).t930.value = some (d.conservative : ℚ) ∧
      d.conservative = pyRoundInt (d.typical * (13/10))) ∧
    (∀ d : TravelTimeData, getTravelTime (api TimeKey.tmid) = Except.ok d →
      (livePath api nowTs ut off).tmid.value = some (d.conservative : ℚ) ∧
      d.conservative = pyRoundInt (d.typical * (13/10))) ∧
    (∀ d : TravelTimeData, getTravelTime (api TimeKey.t630) = Except.ok d →
      (livePath api nowTs ut off).t630.value = some (d.conservative : ℚ) ∧
      d.conservative = pyRoundInt (d.typical * (13/10))) ∧
    (∀ d : TravelTimeData, getTravelTime (api TimeKey.t730) = Except.ok d →
      (livePath api nowTs ut off).t730.value = some (d.conservative : ℚ) ∧
      d.conservative = pyRoundInt (d.typical * (13/10))) ∧
    (estimateBaseTravelTime geoO geoD hav = some b → b ≠ 0 →
      (fallbackCalculation geoO geoD hav).t830.value = some (b * (13/10)) ∧
      (fallbackCalculation geoO geoD hav).t930.value = some (b * (11/10)) ∧
      (fallbackCalculation geoO geoD hav).tmid.value = some (b * 1) ∧
      (fallbackCalculation geoO geoD hav).t630.value = some (b * (14/10)) ∧
      (fallbackCalculation geoO geoD hav).t730.value = some (b * (12/10))) := by
  have hv := livePath_values api nowTs ut off
  refine ⟨fun d hd => ?_, fun d hd => ?_, fun d hd => ?_, fun d hd => ?_, fun d hd => ?_,
    fun hb hb0 => fallbackCalculation_values geoO geoD hav b hb hb0⟩
  · obtain ⟨t, rfl⟩ := getTravelTime_ok_shape _ _ hd
    exact ⟨by rw [hv.1, hd]; rfl, rfl⟩
  · obtain ⟨t, rfl⟩ := getTravelTime_ok_shape _ _ hd
    exact ⟨by rw [hv.2.1, hd]; rfl, rfl⟩
  · obtain ⟨t, rfl⟩ := getTravelTime_ok_shape _ _ hd
    exact ⟨by rw [hv.2.2.1, hd]; rfl, rfl⟩
  · obtain ⟨t, rfl⟩ := getTravelTime_ok_shape _ _ hd
    exact ⟨by rw [hv.2.2.2.1, hd]; rfl, rfl⟩
  · obtain ⟨t, rfl⟩ := getTravelTime_ok_shape _ _ hd
    exact ⟨by rw [hv.2.2.2.2, hd]; rfl, rfl⟩

/-- Concrete check of C5 (amended): the spiked live call stores the
conservative 08:30 value, and the 40 km fallback call stores
`60 * 1.3 = 78` for the 08:30 slot. -/
theorem C5_conservative_persisted_witness :
    (livePath spikeApi 0 false 0).t830.value = some ((mkTravelTimeData 100).conservative : ℚ) ∧
    (mkTravelTimeData 100).conservative =
      pyRoundInt ((mkTravelTimeData 100).typical * (13/10)) ∧
    (fallbackCalculation (some (0, 0)) (some (1, 1)) (constHav 40)).t830.value =
      some ((60 : ℚ) * (13/10)) := by
  have hd : getTravelTime (spikeApi TimeKey.t830) = Except.ok (mkTravelTimeData 100) := by
    simp only [spikeApi, getTravelTime, okResp]
    norm_num [pyRound1, pyRoundInt]
  have hbase : estimateBaseTravelTime (some ((0 : ℚ), (0 : ℚ))) (some ((1 : ℚ), (1 : ℚ)))
      (constHav 40) = some 60 := by
    simp [estimateBaseTravelTime, constHav]
    norm_num [pyRound1, pyRoundInt]
  have h := C5_conservative_persisted spikeApi 0 false 0 (some (0, 0)) (some (1, 1))
    (constHav 40) 60
  exact ⟨(h.1 _ hd).1, (h.1 _ hd).2, (h.2.2.2.2.2 hbase (by norm_num)).1⟩

/-- Claim C5 is false as stated: in the 40 km fallback call the stored
08:30 value is the multiplied base `78`, while the max bound of the
displayed range is `round(78 * 1.3) = 101`; the persisted value is the
typical value, not the conservative max. -/
theorem C5_counterexample :
    (fallbackCalculation (some (0, 0)) (some (1, 1)) (constHav 40)).t830.value =
      some (78 : ℚ) ∧
    (fallbackCalculation (some (0, 0)) (some (1, 1)) (constHav 40)).t830.display =
      some "55-101" ∧
    (78 : ℚ) ≠ ((pyRoundInt ((78 : ℚ) * (13/10)) : ℤ) : ℚ) := by
  have hbase : estimateBaseTravelTime (some ((0 : ℚ), (0 : ℚ))) (some ((1 : ℚ), (1 : ℚ)))
      (constHav 40) = some 60 := by
    simp [estimateBaseTravelTime, constHav]
    norm_num [pyRound1, pyRoundInt]
  refine ⟨?_, ?_, by norm_num [pyRoundInt]⟩
  · have hv := fallbackCalculation_values _ _ _ 60 hbase (by norm_num)
    rw [hv.1]
    norm_num
  · simp only [fallbackCalculation, hbase, fallbackValue]
    norm_num [fallbackDisplay, pyRoundInt]
    rfl

/-- Claim C8 (amended): with both addresses geocoded, the fallback
base time is `round((distance_km / 40) * 60, 1)` minutes; when that
base is nonzero the per-slot estimates are the base times the fixed
multipliers 1.3 / 1.1 / 1.0 / 1.4 / 1.2 — a 40 km distance yields a
midday estimate of 60 minutes and an 08:30 estimate of 78 minutes —
but when the base rounds to zero, Python truthiness makes every
slot's estimate absent instead of base times the factor. -/
theorem C8_fallback_estimates (geoO geoD : Option (ℚ × ℚ)) (co cd : ℚ × ℚ)
    (hav : ℚ × ℚ → ℚ × ℚ → ℚ) (b : ℚ)
    (hO : geoO = some co) (hD : geoD = some cd) :
    estimateBaseTravelTime geoO geoD hav = some (pyRound1 (hav co cd / 40 * 60)) ∧
    (estimateBaseTravelTime geoO geoD hav = some b → b ≠ 0 →
      (fallbackCalculation geoO geoD hav).t830.value = some (b * (13/10)) ∧
      (fallbackCalculation geoO geoD hav).t930.value = some (b * (11/10)) ∧
      (fallbackCalculation geoO geoD hav).tmid.value = some (b * 1) ∧
      (fallbackCalculation geoO geoD hav).t630.value = some (b * (14/10)) ∧
      (fallbackCalculation geoO geoD hav).t730.value = some (b * (12/10))) ∧
    (estimateBaseTravelTime geoO geoD hav = some 0 →
      (fallbackCalculation geoO geoD hav).t830.value = none ∧
      (fallbackCalculation geoO geoD hav).t930.value = none ∧
      (fallbackCalculation geoO geoD hav).tmid.value = none ∧
      (fallbackCalculation geoO geoD hav).t630.value = none ∧
      (fallbackCalculation geoO geoD hav).t730.value = none) ∧
    (hav co cd = 40 →
      (fallbackCalculation geoO geoD hav).tmid.value = some 60 ∧
      (fallbackCalculation geoO geoD hav).t830.value = some 78) := by
  subst hO hD
  refine ⟨by simp [estimateBaseTravelTime],
    fun hb hb0 => fallbackCalculation_values _ _ _ b hb hb0,
    fun hb0 => ?_, fun h40 => ?_⟩
  · simp [fallbackCalculation, hb0, fallbackValue]
  · have hb : estimateBaseTravelTime (some co) (some cd) hav = some 60 := by
      simp [estimateBaseTravelTime, h40]
      norm_num [pyRound1, pyRoundInt]
    have hval := fallbackCalculation_values _ _ _ 60 hb (by norm_num)
    constructor
    · rw [hval.2.2.1]
      norm_num
    · rw [hval.1]
      norm_num

/-- Concrete check of C8 (amended): a 40 km oracle gives base 60 with
midday 60 and 08:30 78; a 0 km oracle (both addresses geocoded to the
same point) gives an absent 08:30 estimate. -/
theorem C8_fallback_estimates_witness :
    estimateBaseTravelTime (some ((0 : ℚ), (0 : ℚ))) (some ((1 : ℚ), (1 : ℚ))) (constHav 40) =
      some (pyRound1 (constHav 40 (0, 0) (1, 1) / 40 * 60)) ∧
    (fallbackCalculation (some (0, 0)) (some (1, 1)) (constHav 40)).tmid.value = some 60 ∧
    (fallbackCalculation (some (0, 0)) (some (1, 1)) (constHav 40)).t830.value = some 78 ∧
    (fallbackCalculation (some (0, 0)) (some (0, 0)) (constHav 0)).t830.value = none := by
  have h := C8_fallback_estimates (some (0, 0)) (some (1, 1)) (0, 0) (1, 1) (constHav 40) 60
    rfl rfl
  have hz := C8_fallback_estimates (some (0, 0)) (some (0, 0)) (0, 0) (0, 0) (constHav 0) 60
    rfl rfl
  have hzb : estimateBaseTravelTime (some ((0 : ℚ), (0 : ℚ))) (some ((0 : ℚ), (0 : ℚ)))
      (constHav 0) = some 0 := by
    simp [estimateBaseTravelTime, constHav]
    norm_num [pyRound1, pyRoundInt]
  exact ⟨h.1, (h.2.2.2 rfl).1, (h.2.2.2 rfl).2, (hz.2.2.1 hzb).1⟩

/-- Claim C8 is false as stated: two successfully geocoded addresses
at zero straight-line distance give base `round((0 / 40) * 60, 1) = 0`
— geocoding succeeded, so the claim asserts per-slot estimates of
`0` times each factor — yet the truthiness guard
`base_time * 1.3 if base_time else None` makes every slot's estimate
absent; the midday estimate is `None`, not `0 * 1.0`. -/
theorem C8_counterexample :
    estimateBaseTravelTime (some ((0 : ℚ), (0 : ℚ))) (some ((0 : ℚ), (0 : ℚ))) (constHav 0) =
      some 0 ∧
    (fallbackCalculation (some (0, 0)) (some (0, 0)) (constHav 0)).tmid.value = none ∧
    (fallbackCalculation (some (0, 0)) (some (0, 0)) (constHav 0)).tmid.value ≠
      some ((0 : ℚ) * 1) := by
  have hbase : estimateBaseTravelTime (some ((0 : ℚ), (0 : ℚ))) (some ((0 : ℚ), (0 : ℚ)))
      (constHav 0) = some 0 := by
    simp [estimateBaseTravelTime, constHav]
    norm_num [pyRound1, pyRoundInt]
  refine ⟨hbase, ?_, ?_⟩
  · simp only [fallbackCalculation, hbase, fallbackValue]
    norm_num
  · simp only [fallbackCalculation, hbase, fallbackValue]
    simp

/-- Claim C9: in the fallback path a geocoding failure for either
address yields a normally returned result (no exception) in which
every slot's estimate is absent. -/
theorem C9_fallback_geocode_failure (origin destination : String)
    (api : TimeKey → Except String ApiResponse)
    (geoO geoD : Option (ℚ × ℚ)) (hav : ℚ × ℚ → ℚ × ℚ → ℚ)
    (nowTs : ℤ) (ut : Bool) (off : ℤ)
    (ho : origin ≠ "") (hd : destination ≠ "") (hfail : geoO = none ∨ geoD = none) :
    (calculateTravelTimes none origin destination api geoO geoD hav nowTs ut off).map
      (fun r => (r.t830.value, r.t930.value, r.tmid.value, r.t630.value, r.t730.value)) =
      Except.ok (none, none, none, none, none) := by
  have hbase : estimateBaseTravelTime geoO geoD hav = none := by
    rcases hfail with h | h
    · subst h
      cases geoD <;> rfl
    · subst h
      cases geoO <;> rfl
  simp [calculateTravelTimes, ho, hd, Except.map, fallbackCalculation, hbase, fallbackValue]

/-- Concrete check of C9: failing origin geocode, all slots absent. -/
theorem C9_fallback_geocode_failure_witness :
    (calculateTravelTimes none "a" "b" deniedApi none (some (1, 1)) (constHav 40) 0 false 0).map
      (fun r => (r.t830.value, r.t930.value, r.tmid.value, r.t630.value, r.t730.value)) =
      Except.ok (none, none, none, none, none) :=
  C9_fallback_geocode_failure "a" "b" deniedApi none (some (1, 1)) (constHav 40) 0 false 0
    (by decide) (by decide) (Or.inl rfl)
